import Mathlib

/-!
Verification development for the AURA elderly-care assistant (src/main.py).

The Python source is shallowly embedded: pure fragments become Lean
functions, the mutable application state becomes an explicit `AppState`
record threaded through the operations, JSON data becomes the inductive
`JVal`, Python exceptions become `Option`/`Except`, and the external
services (HTTP, speech recognition, the OpenAI and Wikipedia libraries)
become explicit oracle parameters.  Time is modelled in integral
microseconds, which is exact for every quantity the code manipulates.
-/

namespace Aura

/-! ### Association lists

Python `dict`s (insertion ordered, string keyed) are modelled as
association lists.  `assocGet` is `d[k]` / `d.get(k)`, `assocSet` is
`d[k] = v` (overwrite in place, else append), `setDefault` is
`d.setdefault(k, v)`. -/

/-! ### Python string primitives

Structural-recursion models of the Python string methods the program
uses (`.lower()`, `.strip()`, `.split(sep)` for a one-character
separator, and the digit part of `int(...)`), so that every definition
evaluates inside the kernel.  `.lower()` is modelled for the ASCII
range, which is all the keyword matching relies on. -/

def isPySpace (c : Char) : Bool :=
  c = ' ' || c = '\t' || c = '\n' || c = '\r' || c = '\x0b' || c = '\x0c'

def pyLower (s : String) : String :=
  String.mk (s.data.map Char.toLower)

def pyStrip (s : String) : String :=
  String.mk (((s.data.dropWhile isPySpace).reverse.dropWhile isPySpace).reverse)

def splitOnChar (sep : Char) (l : List Char) : List (List Char) :=
  l.foldr
    (fun c acc =>
      if c = sep then [] :: acc
      else
        match acc with
        | [] => [[c]]
        | h :: t => (c :: h) :: t)
    [[]]

def pySplitOn (s : String) (sep : Char) : List String :=
  (splitOnChar sep s.data).map String.mk

/-- The digit-string part of Python `int(...)`: surrounding whitespace
and one leading `+` are accepted (a leading `-` would parse in Python
but always produces an out-of-range hour/minute, so rejecting it here
changes no observable behaviour; digit-grouping underscores are not
modelled). -/
def pyParseNat (s : String) : Option Nat :=
  let t := (pyStrip s).data
  let t := match t with
    | '+' :: rest => rest
    | _ => t
  if t.isEmpty then none
  else if t.all Char.isDigit then
    some (t.foldl (fun n c => n * 10 + (c.toNat - 48)) 0)
  else none

def assocGet {α : Type} : List (String × α) → String → Option α
  | [], _ => none
  | (k, v) :: rest, key => if k = key then some v else assocGet rest key

def assocSet {α : Type} : List (String × α) → String → α → List (String × α)
  | [], key, v => [(key, v)]
  | (k, w) :: rest, key, v =>
    if k = key then (k, v) :: rest else (k, w) :: assocSet rest key v

def setDefault {α : Type} (d : List (String × α)) (k : String) (v : α) :
    List (String × α) :=
  match assocGet d k with
  | some _ => d
  | none => d ++ [(k, v)]

/-! ### JSON values

`config.json` contents.  Python floats that the program merely stores and
never computes with (`voice_volume`) are represented by integers. -/

inductive JVal : Type
  | null : JVal
  | bool : Bool → JVal
  | num : Int → JVal
  | str : String → JVal
  | arr : List JVal → JVal
  | obj : List (String × JVal) → JVal
  deriving Repr, Inhabited

def JVal.isObj : JVal → Bool
  | .obj _ => true
  | _ => false

/-! ### ConfigManager.get / ConfigManager.set (src/main.py lines 99-116)

`get` splits the key path on `"."` and walks the nested dictionaries,
returning the default as soon as a segment is missing or the current
value is not a dictionary.  `set` walks all but the last segment,
replacing a missing or non-dictionary intermediate by a fresh empty
dictionary, then assigns the last segment. -/

def getPath : JVal → List String → Option JVal
  | v, [] => some v
  | .obj fields, p :: rest =>
    match assocGet fields p with
    | some v => getPath v rest
    | none => none
  | _, _ :: _ => none

def setParts : List (String × JVal) → List String → JVal → List (String × JVal)
  | fields, [], _ => fields
  | fields, [p], v => assocSet fields p v
  | fields, p :: q :: rest, v =>
    let child : List (String × JVal) :=
      match assocGet fields p with
      | some (.obj o) => o
      | _ => []
    assocSet fields p (.obj (setParts child (q :: rest) v))

def cfgGet (data : List (String × JVal)) (keyPath : String) (dflt : JVal) : JVal :=
  (getPath (.obj data) (pySplitOn keyPath '.')).getD dflt

def cfgSet (data : List (String × JVal)) (keyPath : String) (v : JVal) :
    List (String × JVal) :=
  setParts data (pySplitOn keyPath '.') v

/-! ### DEFAULT_CONFIG (src/main.py lines 34-52) -/

def defaultApiKeys : List (String × JVal) :=
  [("openweathermap", .str ""), ("newsapi", .str ""), ("openai", .str "")]

def defaultFavorites : List (String × JVal) :=
  [("music", .arr []), ("websites", .arr [])]

def DEFAULT_CONFIG : List (String × JVal) :=
  [("user_name", .str "User"),
   ("city", .str "New York"),
   ("theme", .str "Dark"),
   ("font_size", .num 16),
   ("voice_rate", .num 150),
   ("voice_volume", .num 1),
   ("api_keys", .obj defaultApiKeys),
   ("favorites", .obj defaultFavorites),
   ("emergency_contacts", .arr []),
   ("medication_schedule", .obj [])]

/-! ### ConfigManager._load (src/main.py lines 65-88)

The outcome of opening and JSON-parsing the config file is one of:
the file does not exist, reading/parsing raised, or a parsed `JVal`.
`merged.update(loaded)` succeeds when `loaded` is a dictionary; updating
from a JSON array succeeds in Python only when every element is a
two-element sequence (modelled for string-keyed pairs; the exotic cases
of two-character strings or non-string keys are collapsed onto the
exception path, which changes no observable of the claims since every
successful update starts from a full copy of the defaults); updating
from any scalar raises `TypeError`.  Any exception inside the `try`
makes `_load` return a copy of `DEFAULT_CONFIG`. -/

inductive LoadInput : Type
  | missing : LoadInput
  | readError : LoadInput
  | parsed : JVal → LoadInput

def updatePairs : JVal → Option (List (String × JVal))
  | .obj fields => some fields
  | .arr elems =>
    elems.mapM fun e =>
      match e with
      | .arr [.str k, v] => some (k, v)
      | _ => none
  | _ => none

def dictUpdate (d : List (String × JVal)) (pairs : List (String × JVal)) :
    List (String × JVal) :=
  pairs.foldl (fun acc kv => assocSet acc kv.1 kv.2) d

/-- `merged["api_keys"].setdefault(k, v)` for the three default keys;
raises (`none`) when `merged["api_keys"]` is not a dictionary. -/
def ensureApiKeys (merged : List (String × JVal)) : Option (List (String × JVal)) :=
  match assocGet merged "api_keys" with
  | none => some (assocSet merged "api_keys" (.obj defaultApiKeys))
  | some (.obj ak) =>
    some (assocSet merged "api_keys"
      (.obj (defaultApiKeys.foldl (fun d kv => setDefault d kv.1 kv.2) ak)))
  | some _ => none

def ensureKeyDefault (d : List (String × JVal)) (k : String) (v : JVal) :
    List (String × JVal) :=
  match assocGet d k with
  | some _ => d
  | none => assocSet d k v

def loadBody (j : JVal) : Option (List (String × JVal)) := do
  let pairs ← updatePairs j
  let merged := dictUpdate DEFAULT_CONFIG pairs
  let merged ← ensureApiKeys merged
  let merged := ensureKeyDefault merged "favorites" (.obj defaultFavorites)
  let merged := ensureKeyDefault merged "medication_schedule" (.obj [])
  let merged := ensureKeyDefault merged "emergency_contacts" (.arr [])
  pure merged

def configLoad : LoadInput → List (String × JVal)
  | .missing => DEFAULT_CONFIG
  | .readError => DEFAULT_CONFIG
  | .parsed j =>
    match loadBody j with
    | some r => r
    | none => DEFAULT_CONFIG

/-! ### Command router AURAApp._do_command (src/main.py lines 395-471)

`inStr needle hay` is Python `needle in hay`.  The router lower-cases and
strips the input, then tests the keyword groups in source order; the
first group whose test succeeds handles the command and the function
returns.  `routeSpec` restates the same dispatch as a first-match walk
over an ordered rule table. -/

def inStrChars (needle : List Char) : List Char → Bool
  | [] => needle.isEmpty
  | c :: rest => needle.isPrefixOf (c :: rest) || inStrChars needle rest

def inStr (needle hay : String) : Bool :=
  inStrChars needle.data hay.data

inductive Handler : Type
  | emergency | time | date | weather | news | joke
  | playMusic | reminder | medication | openSite | exitApp | fallback
  deriving Repr, DecidableEq

def emergencyWords : List String :=
  ["help", "emergency", "accident", "fall", "ambulance"]

def exitWords : List String := ["exit", "quit", "goodbye"]

def route (command : String) : Handler :=
  let cmd := pyStrip (pyLower command)
  if emergencyWords.any (fun k => inStr k cmd) then .emergency
  else if inStr "time" cmd then .time
  else if inStr "date" cmd then .date
  else if inStr "weather" cmd then .weather
  else if inStr "news" cmd then .news
  else if inStr "joke" cmd then .joke
  else if inStr "play music" cmd || inStr "play song" cmd then .playMusic
  else if inStr "remind me" cmd || inStr "reminder" cmd then .reminder
  else if inStr "medication" cmd || inStr "pill" cmd || inStr "medicine" cmd then .medication
  else if inStr "open" cmd && (inStr "http" cmd || inStr "." cmd || inStr "website" cmd) then .openSite
  else if exitWords.any (fun k => inStr k cmd) then .exitApp
  else .fallback

def routeRules : List ((String → Bool) × Handler) :=
  [(fun c => emergencyWords.any (fun k => inStr k c), .emergency),
   (fun c => inStr "time" c, .time),
   (fun c => inStr "date" c, .date),
   (fun c => inStr "weather" c, .weather),
   (fun c => inStr "news" c, .news),
   (fun c => inStr "joke" c, .joke),
   (fun c => inStr "play music" c || inStr "play song" c, .playMusic),
   (fun c => inStr "remind me" c || inStr "reminder" c, .reminder),
   (fun c => inStr "medication" c || inStr "pill" c || inStr "medicine" c, .medication),
   (fun c => inStr "open" c && (inStr "http" c || inStr "." c || inStr "website" c), .openSite),
   (fun c => exitWords.any (fun k => inStr k c), .exitApp)]

def firstMatch (c : String) : List ((String → Bool) × Handler) → Handler
  | [] => .fallback
  | (p, h) :: rest => if p c then h else firstMatch c rest

def routeSpec (command : String) : Handler :=
  firstMatch (pyStrip (pyLower command)) routeRules

/-! ### Knowledge-lookup fallback (src/main.py lines 473-497)

When no keyword matched, `_do_command` consults the external services.
They are modelled as oracles: `ai q` is the OpenAI chat completion for
prompt `q` (`none` when the call raises, including when `get_ai_response`
re-raises); `wiki q n` is `wikipedia.summary(q, sentences=n)` (`none`
when it raises).  The branch produces the list of assistant responses it
appends to the GUI queue; totality of the function models that the
`try`/`except` chain lets no exception escape. -/

structure ExtEnv : Type where
  openaiKey : String
  ai : String → Option String
  wiki : String → Nat → Option String

def fallbackRun (env : ExtEnv) (command : String) : List String :=
  let wikiPart : List String :=
    match env.wiki command 2 with
    | some w => [w]
    | none => ["Sorry, I couldn\x27t find an answer."]
  if env.openaiKey ≠ "" then
    match env.ai command with
    | some t => [t]
    | none => wikiPart
  else wikiPart

/-! ### get_weather / get_news (src/main.py lines 527-558)

The HTTP layer is an oracle: `requests.get` either raises (`.error`) or
yields a response with a status code, the message of the `HTTPError`
that `raise_for_status` would raise, and the result of `.json()`
(`.error` when the body is not JSON).  The returned `Bool` records
whether an HTTP request was performed.  Exception messages coming out
of dictionary and list subscripts are abstracted; their exact text is
outside every claim. -/

structure HttpResponse : Type where
  status : Nat
  statusMsg : String
  body : Except String JVal

/-- `v[k]`: `KeyError` on a missing key, `TypeError` on a non-dictionary. -/
def jGet (j : JVal) (k : String) : Except String JVal :=
  match j with
  | .obj fields =>
    match assocGet fields k with
    | some v => .ok v
    | none => .error ("KeyError: " ++ k)
  | _ => .error "TypeError: value is not subscriptable"

/-- `v.get(k)`: `AttributeError` on a non-dictionary. -/
def jGetOpt (j : JVal) (k : String) : Except String (Option JVal) :=
  match j with
  | .obj fields => .ok (assocGet fields k)
  | _ => .error "AttributeError: object has no attribute get"

/-- `v[0]` on the JSON list `data["weather"]`; a non-list (including a
string, which in Python would fail one subscript later) is an error. -/
def jIndex0 (j : JVal) : Except String JVal :=
  match j with
  | .arr (x :: _) => .ok x
  | .arr [] => .error "IndexError: list index out of range"
  | _ => .error "TypeError: value is not indexable"

/-- How Python string interpolation renders a JSON leaf; containers are
abstracted, no claim depends on their rendering. -/
def pyStr : JVal → String
  | .str s => s
  | .num n => toString n
  | .bool b => if b then "True" else "False"
  | .null => "None"
  | .arr _ => "<list>"
  | .obj _ => "<dict>"

/-- Python truthiness of a JSON value. -/
def pyTruthy : JVal → Bool
  | .null => false
  | .bool b => b
  | .num n => n ≠ 0
  | .str s => s ≠ ""
  | .arr l => !l.isEmpty
  | .obj l => !l.isEmpty

/-- Python `str.capitalize()`: first character upper-cased, rest
lower-cased (ASCII model). -/
def pyCapitalize (s : String) : String :=
  match (pyLower s).data with
  | [] => ""
  | c :: rest => String.mk (c.toUpper :: rest)

def optStr : Option JVal → String
  | none => "None"
  | some v => pyStr v

/-- The body of `get_weather`'s `try` after a successful request:
`data["main"]["temp"]`, `data["weather"][0]["description"].capitalize()`,
`data["main"].get("feels_like")`, interpolated into the reply. -/
def weatherReport (city : String) (data : JVal) : Except String String := do
  let mainV ← jGet data "main"
  let temp ← jGet mainV "temp"
  let weatherV ← jGet data "weather"
  let w0 ← jIndex0 weatherV
  let descV ← jGet w0 "description"
  let desc ←
    match descV with
    | .str s => Except.ok (pyCapitalize s)
    | _ => Except.error "AttributeError: object has no attribute capitalize"
  let feels ← jGetOpt mainV "feels_like"
  pure ("The weather in " ++ city ++ " is " ++ desc ++ ", " ++ pyStr temp
    ++ "°C (feels like " ++ optStr feels ++ "°C).")

def getWeather (apiKey city : String) (http : Except String HttpResponse) :
    String × Bool :=
  if apiKey = "" then
    ("Weather API key not configured. Please add it in Settings.", false)
  else
    let res : String :=
      match http with
      | .error e => "Could not fetch weather: " ++ e
      | .ok r =>
        if 400 ≤ r.status then "Could not fetch weather: " ++ r.statusMsg
        else
          match r.body with
          | .error e => "Could not fetch weather: " ++ e
          | .ok data =>
            match weatherReport city data with
            | .ok s => s
            | .error e => "Could not fetch weather: " ++ e
    (res, true)

/-- The numbered headline lines built from the `articles` list; `.get`
on a non-dictionary element raises. -/
def headlineLines : List JVal → Nat → Except String (List String)
  | [], _ => .ok []
  | a :: rest, i => do
    let t ← jGetOpt a "title"
    let title :=
      match t with
      | some v => pyStr v
      | none => "No title"
    let restL ← headlineLines rest (i + 1)
    pure ((toString (i + 1) ++ ". " ++ title) :: restL)

def joinLines : List String → String
  | [] => ""
  | [l] => l
  | l :: rest => l ++ "\n" ++ joinLines rest

/-- The body of `get_news`'s `try` after a successful request:
`articles = r.json().get("articles", [])`, the empty check, and the
headline formatting. -/
def newsReport (data : JVal) : Except String String := do
  let articlesOpt ← jGetOpt data "articles"
  let articles := articlesOpt.getD (.arr [])
  if pyTruthy articles = false then
    pure "No headlines available right now."
  else
    match articles with
    | .arr l => do
      let lines ← headlineLines l 0
      pure ("Top headlines:\n" ++ joinLines lines)
    | _ => Except.error "TypeError: value is not enumerable"

def getNews (apiKey : String) (http : Except String HttpResponse) :
    String × Bool :=
  if apiKey = "" then
    ("News API key not configured. Please add it in Settings.", false)
  else
    let res : String :=
      match http with
      | .error e => "Could not fetch news: " ++ e
      | .ok r =>
        if 400 ≤ r.status then "Could not fetch news: " ++ r.statusMsg
        else
          match r.body with
          | .error e => "Could not fetch news: " ++ e
          | .ok data =>
            match newsReport data with
            | .ok s => s
            | .error e => "Could not fetch news: " ++ e
    (res, true)

/-! ### GUI queue (src/main.py lines 253-288)

`GuiItem` has one constructor per action tag that `_process_gui_queue`
handles.  Buttons are identified by name.  `_append_text` is the
formatting of the conversation textbox. -/

inductive GuiItem : Type
  | append : String → String → GuiItem
  | status : String → GuiItem
  | button : String → String → GuiItem
  | errorPopup : String → GuiItem
  | infoPopup : String → GuiItem
  deriving Repr, DecidableEq

structure GuiState : Type where
  transcript : String
  statusVar : String
  buttonTexts : List (String × String)
  errorPopups : List String
  infoPopups : List String
  deriving Repr, DecidableEq

def appendText (g : GuiState) (tag text : String) : GuiState :=
  let line : String :=
    if tag = "user" then "You: " ++ text ++ "\n\n"
    else if tag = "assistant" then "AURA: " ++ text ++ "\n\n"
    else if tag = "system" then "System: " ++ text ++ "\n\n"
    else if tag = "emergency" then "!!! EMERGENCY: " ++ text ++ "\n\n"
    else text ++ "\n\n"
  { g with transcript := g.transcript ++ line }

def dispatchGui (g : GuiState) : GuiItem → GuiState
  | .append tag text => appendText g tag text
  | .status s => { g with statusVar := s }
  | .button b t => { g with buttonTexts := assocSet g.buttonTexts b t }
  | .errorPopup m => { g with errorPopups := g.errorPopups ++ [m] }
  | .infoPopup m => { g with infoPopups := g.infoPopups ++ [m] }

/-! ### Application state

The fields of `AURAApp` the claims touch: the GUI, the shared queue,
the listening flag, the medication timer bookkeeping (`_med_after_ids`,
the set of pending `after` timers, a fresh-id counter standing for the
ids Tk allocates), the medication schedule from the config, and the list
of commands handed to background `_do_command` threads. -/

structure Timer : Type where
  id : Nat
  delayMs : Nat
  med : String
  timeStr : String
  deriving Repr, DecidableEq

structure AppState : Type where
  gui : GuiState
  queue : List GuiItem
  listening : Bool
  medAfterIds : List Nat
  pending : List Timer
  nextId : Nat
  schedule : List (String × List String)
  dispatched : List String
  deriving Repr, DecidableEq

/-! ### _process_gui_queue (src/main.py lines 253-273)

The drain loop runs inside `try`: each `get_nowait` removes the front
item, then the item is dispatched; a raising dispatch (`handle` returns
`none`) aborts the loop with the item already removed.  The `finally`
block re-arms the callback 100 ms later no matter what; the returned
`Nat` is that re-arm delay. -/

def drainQueue (handle : GuiState → GuiItem → Option GuiState) :
    GuiState → List GuiItem → GuiState × List GuiItem
  | g, [] => (g, [])
  | g, it :: rest =>
    match handle g it with
    | none => (g, rest)
    | some g2 => drainQueue handle g2 rest

def processGuiQueue (handle : GuiState → GuiItem → Option GuiState)
    (st : AppState) : AppState × Nat :=
  let gq := drainQueue handle st.gui st.queue
  ({ st with gui := gq.1, queue := gq.2 }, 100)

/-- The concrete item dispatch of `_process_gui_queue`; it raises on no
input, so the total handler. -/
def guiHandle (g : GuiState) (it : GuiItem) : Option GuiState :=
  some (dispatchGui g it)

/-! ### Medication reminders (src/main.py lines 594-625)

Wall-clock time is an absolute count of microseconds `nowUs`;
`now.replace(hour=hh, minute=mm, second=0, microsecond=0)` is the start
of the current day plus the target offset, and `replace` raises
(`parseHHMM` returns `none`) outside 0-23 / 0-59.  The `after` delay is
`int(delta.total_seconds() * 1000)`, i.e. the microsecond difference
divided by 1000. -/

def usPerDay : Nat := 24 * 3600 * 1000000

/-- `hh, mm = [int(x) for x in tstr.strip().split(":")]` followed by the
range check `now.replace` performs; `none` is the exception path that
`_schedule_medication_reminders` catches per entry. -/
def parseHHMM (tstr : String) : Option (Nat × Nat) :=
  match pySplitOn (pyStrip tstr) ':' with
  | [h, m] =>
    match pyParseNat h, pyParseNat m with
    | some hh, some mm =>
      if hh ≤ 23 && mm ≤ 59 then some (hh, mm) else none
    | _, _ => none
  | _ => none

def targetUs (hm : Nat × Nat) : Nat :=
  (hm.1 * 60 + hm.2) * 60 * 1000000

def nextOccurUs (nowUs : Nat) (hm : Nat × Nat) : Nat :=
  let midnight := nowUs / usPerDay * usPerDay
  let t := midnight + targetUs hm
  if t ≤ nowUs then t + usPerDay else t

def delayMsOf (nowUs : Nat) (hm : Nat × Nat) : Nat :=
  (nextOccurUs nowUs hm - nowUs) / 1000

/-- One iteration of the inner loop of `_schedule_medication_reminders`:
parse the time, schedule an `after` timer for the next occurrence and
record its id; the `except` arm skips the entry. -/
def schedOneTime (nowUs : Nat) (med : String) (st : AppState) (tstr : String) :
    AppState :=
  match parseHHMM tstr with
  | some hm =>
    { st with
      pending := st.pending ++ [⟨st.nextId, delayMsOf nowUs hm, med, tstr⟩],
      medAfterIds := st.medAfterIds ++ [st.nextId],
      nextId := st.nextId + 1 }
  | none => st

/-- `_schedule_medication_reminders`: best-effort `after_cancel` of every
recorded id (an id with no pending timer raises and is swallowed), clear
the list, then walk the schedule. -/
def scheduleMedicationReminders (st : AppState) (nowUs : Nat) : AppState :=
  let st1 : AppState :=
    { st with
      pending := st.pending.filter (fun t => !(st.medAfterIds.contains t.id)),
      medAfterIds := [] }
  st.schedule.foldl (fun acc mt => mt.2.foldl (schedOneTime nowUs mt.1) acc) st1

/-- `apply_settings_changes` (src/main.py lines 686-713): of its effects,
only the rescheduling call touches the modelled state; label, theme,
font and TTS updates live outside it. -/
def applySettingsChanges (st : AppState) (nowUs : Nat) : AppState :=
  scheduleMedicationReminders st nowUs

/-- `_trigger_medication` (src/main.py lines 618-625): announce, then
re-arm a timer for the same medication and time string 24 hours
(`24 * 3600 * 1000` ms) from the firing instant and record its id. -/
def medMsg (med timeStr : String) : String :=
  "It\x27s time to take your " ++ med ++ " (" ++ timeStr ++ ")."

def triggerMedication (st : AppState) (med timeStr : String) : AppState :=
  { st with
    queue := st.queue ++ [GuiItem.append "assistant" (medMsg med timeStr)],
    pending := st.pending ++ [⟨st.nextId, 24 * 3600 * 1000, med, timeStr⟩],
    medAfterIds := st.medAfterIds ++ [st.nextId],
    nextId := st.nextId + 1 }

/-- The timers the current configuration derives, with sequential fresh
ids: the specification-shaped restatement of the scheduling walk. -/
def timersOfTimes (nowUs : Nat) (med : String) : List String → Nat → List Timer
  | [], _ => []
  | tstr :: rest, nid =>
    match parseHHMM tstr with
    | some hm => ⟨nid, delayMsOf nowUs hm, med, tstr⟩ :: timersOfTimes nowUs med rest (nid + 1)
    | none => timersOfTimes nowUs med rest nid

def parsedCount : List String → Nat
  | [] => 0
  | t :: rest =>
    match parseHHMM t with
    | some _ => parsedCount rest + 1
    | none => parsedCount rest

def totalParsed : List (String × List String) → Nat
  | [] => 0
  | (_, times) :: rest => parsedCount times + totalParsed rest

def timersOfSchedule (nowUs : Nat) : List (String × List String) → Nat → List Timer
  | [], _ => []
  | (med, times) :: rest, nid =>
    timersOfTimes nowUs med times nid
      ++ timersOfSchedule nowUs rest (nid + parsedCount times)

/-! ### Listening (src/main.py lines 341-382)

`toggle_listening` flips `listening_event`.  `_listen_loop` is driven by
a finite trace of recognizer outcomes; `mic` is whether entering
`sr.Microphone()` raises.  Each loop iteration first tests the flag,
then posts `Listening...`, obtains the next outcome, and reacts exactly
as the source: a wait-timeout continues, recognized text is appended and
handed to a `_do_command` thread, an unrecognizable utterance posts a
system line, and a speech-service error posts a system line, clears the
flag and breaks.  The `finally` block clears the flag and queues the
button and status resets. -/

inductive ListenEvent : Type
  | timeout : ListenEvent
  | heard : String → ListenEvent
  | unknownValue : ListenEvent
  | requestError : String → ListenEvent
  deriving Repr, DecidableEq

def toggleListening (st : AppState) : AppState :=
  if st.listening then
    { st with
      listening := false,
      queue := st.queue ++ [GuiItem.button "listen" "🎤 Start Listening",
                            GuiItem.status "Ready"] }
  else
    { st with
      listening := true,
      queue := st.queue ++ [GuiItem.button "listen" "🔴 Listening...",
                            GuiItem.status "Listening..."] }

def listenIter (st : AppState) : List ListenEvent → AppState
  | [] => st
  | ev :: rest =>
    if st.listening then
      let st1 : AppState := { st with queue := st.queue ++ [GuiItem.status "Listening..."] }
      match ev with
      | .timeout => listenIter st1 rest
      | .heard t =>
        let st2 : AppState := { st1 with queue := st1.queue ++ [GuiItem.status "Recognizing..."] }
        let st3 : AppState :=
          if t ≠ "" then
            { st2 with
              queue := st2.queue ++ [GuiItem.append "user" t],
              dispatched := st2.dispatched ++ [t] }
          else st2
        listenIter st3 rest
      | .unknownValue =>
        let st2 : AppState :=
          { st1 with
            queue := st1.queue ++ [GuiItem.status "Recognizing...",
                                   GuiItem.append "system" "Could not understand audio."] }
        listenIter st2 rest
      | .requestError m =>
        { st1 with
          queue := st1.queue ++ [GuiItem.status "Recognizing...",
                                 GuiItem.append "system" ("Speech service error: " ++ m)],
          listening := false }
    else st

def listenFinally (st : AppState) : AppState :=
  { st with
    listening := false,
    queue := st.queue ++ [GuiItem.button "listen" "🎤 Start Listening",
                          GuiItem.status "Ready"] }

def listenLoop (st : AppState) (mic : Except String Unit) (events : List ListenEvent) :
    AppState :=
  match mic with
  | .error e =>
    listenFinally { st with queue := st.queue ++ [GuiItem.errorPopup ("Microphone error: " ++ e)] }
  | .ok _ => listenFinally (listenIter st events)

/-! ### SettingsDialog.save_settings (src/main.py lines 950-1000) and
ConfigManager.save (lines 90-97)

The form is the collection of entry values at the moment `Save & Apply`
is pressed.  `ConfigManager.save` writes the whole in-memory dictionary
as JSON and returns whether the write succeeded; the success of that
write is the oracle `writeOk`.  On `False` the dialog raises
`RuntimeError`, caught by its own handler: an error popup is shown and
the dialog stays open (note the in-memory config keeps the new values
either way).  On `True` the parent's `apply_settings_changes` runs, an
info popup is shown and the dialog is destroyed. -/

structure ContactForm : Type where
  name : String
  relation : String
  phone : String
  deriving Repr, DecidableEq

structure MedForm : Type where
  name : String
  timesRaw : String
  deriving Repr, DecidableEq

structure SettingsForm : Type where
  userName : String
  city : String
  theme : String
  fontSize : Nat
  voiceRate : Nat
  voiceVolume : Int
  weatherKey : String
  newsKey : String
  openaiKey : String
  contacts : List ContactForm
  meds : List MedForm
  musicLines : List String
  deriving Repr, DecidableEq

/-- `x or default` on a stripped string. -/
def strOr (s d : String) : String :=
  if s = "" then d else s

def contactsSaved : List ContactForm → List JVal
  | [] => []
  | w :: rest =>
    let name := pyStrip w.name
    let phone := pyStrip w.phone
    let relation := pyStrip w.relation
    if name ≠ "" && phone ≠ "" then
      JVal.obj [("name", .str name), ("phone", .str phone), ("relation", .str relation)]
        :: contactsSaved rest
    else contactsSaved rest

/-- `times = [t.strip() for t in times_raw.split(",") if t.strip()]` -/
def parseTimesRaw (raw : String) : List String :=
  ((pySplitOn raw ',').map pyStrip).filter (fun t => t ≠ "")

def medsSavedFrom (acc : List (String × JVal)) : List MedForm → List (String × JVal)
  | [] => acc
  | w :: rest =>
    let name := pyStrip w.name
    let raw := pyStrip w.timesRaw
    if name ≠ "" && raw ≠ "" then
      medsSavedFrom
        (assocSet acc name (.arr ((parseTimesRaw raw).map JVal.str))) rest
    else medsSavedFrom acc rest

def medsSaved (ws : List MedForm) : List (String × JVal) :=
  medsSavedFrom [] ws

structure SaveResult : Type where
  cfg : List (String × JVal)
  savedToFile : Bool
  applied : Bool
  infoShown : Bool
  closed : Bool
  errorShown : Bool
  deriving Repr

/-- The `config_mgr.set` calls of `save_settings`, in source order. -/
def savedCfg (cfg0 : List (String × JVal)) (f : SettingsForm) :
    List (String × JVal) :=
  let cfg := cfgSet cfg0 "user_name" (.str (strOr (pyStrip f.userName) "User"))
  let cfg := cfgSet cfg "city" (.str (strOr (pyStrip f.city) "New York"))
  let cfg := cfgSet cfg "theme" (.str (strOr f.theme "Dark"))
  let cfg := cfgSet cfg "font_size" (.num (Int.ofNat f.fontSize))
  let cfg := cfgSet cfg "voice_rate" (.num (Int.ofNat f.voiceRate))
  let cfg := cfgSet cfg "voice_volume" (.num f.voiceVolume)
  let cfg := cfgSet cfg "api_keys.openweathermap" (.str (pyStrip f.weatherKey))
  let cfg := cfgSet cfg "api_keys.newsapi" (.str (pyStrip f.newsKey))
  let cfg := cfgSet cfg "api_keys.openai" (.str (pyStrip f.openaiKey))
  let cfg := cfgSet cfg "emergency_contacts" (.arr (contactsSaved f.contacts))
  let cfg := cfgSet cfg "medication_schedule" (.obj (medsSaved f.meds))
  cfgSet cfg "favorites.music" (.arr (f.musicLines.map JVal.str))

def saveSettings (cfg0 : List (String × JVal)) (f : SettingsForm) (writeOk : Bool) :
    SaveResult :=
  let cfg := savedCfg cfg0 f
  if writeOk then
    { cfg := cfg, savedToFile := true, applied := true, infoShown := true,
      closed := true, errorShown := false }
  else
    { cfg := cfg, savedToFile := false, applied := false, infoShown := false,
      closed := false, errorShown := true }

/-! ### Concrete states used by the witnesses -/

def gui0 : GuiState :=
  ⟨"", "Ready", [], [], []⟩

def schedStateEx : AppState :=
  ⟨gui0, [], false, [5], [⟨5, 1, "Old", "10:00"⟩], 7,
   [("Aspirin", ["08:00", "oops"])], []⟩

def listenOnEx : AppState :=
  ⟨gui0, [], true, [], [], 0, [], []⟩

def listenOffEx : AppState :=
  ⟨gui0, [], false, [], [], 0, [], []⟩

def envWikiOnly : ExtEnv :=
  ⟨"", fun _ => none, fun _ _ => some "From the encyclopedia."⟩

def formCtr : SettingsForm :=
  ⟨"Ann", "Paris", "Dark", 16, 150, 1, "", "", "", [], [⟨"Aspirin", ","⟩], []⟩

def formOk : SettingsForm :=
  ⟨"", "", "Dark", 16, 150, 1, "", "", "",
   [⟨"Bob", "son", "123"⟩, ⟨"", "x", "9"⟩],
   [⟨"Aspirin", "08:00, 20:00"⟩], ["a.mp3"]⟩

/-! Association-list lemmas shared by several developments below. -/

theorem assocGet_assocSet {α : Type} (d : List (String × α)) (k k' : String) (v : α) :
    assocGet (assocSet d k v) k' = if k = k' then some v else assocGet d k' := by
  induction d with
  | nil => by_cases h : k = k' <;> simp [assocGet, assocSet, h]
  | cons hd tl ih =>
    obtain ⟨k0, v0⟩ := hd
    simp only [assocSet]
    by_cases h0 : k0 = k
    · subst h0
      simp only [if_pos rfl, assocGet]
      by_cases h : k0 = k' <;> simp [h]
    · simp only [if_neg h0, assocGet, ih]
      by_cases h1 : k0 = k' <;> by_cases h2 : k = k'
      · exact absurd (h1.trans h2.symm) h0
      · simp [h1, h2]
      · simp [h1, h2]
      · simp [h1, h2]

theorem assocGet_assocSet_self {α : Type} (d : List (String × α)) (k : String) (v : α) :
    assocGet (assocSet d k v) k = some v := by
  simp [assocGet_assocSet]

theorem assocGet_assocSet_ne {α : Type} (d : List (String × α)) (k k' : String) (v : α)
    (h : k ≠ k') : assocGet (assocSet d k v) k' = assocGet d k' := by
  simp [assocGet_assocSet, h]

theorem assocGet_append {α : Type} (d1 d2 : List (String × α)) (k : String) :
    assocGet (d1 ++ d2) k = (assocGet d1 k).orElse (fun _ => assocGet d2 k) := by
  induction d1 with
  | nil => simp [assocGet]
  | cons hd tl ih =>
    obtain ⟨k0, v0⟩ := hd
    by_cases h : k0 = k <;> simp [assocGet, h, ih]

theorem assocGet_setDefault_self {α : Type} (d : List (String × α)) (k : String) (v : α) :
    (assocGet (setDefault d k v) k).isSome = true := by
  unfold setDefault
  cases h : assocGet d k with
  | some w => simp [h]
  | none => simp [assocGet_append, h, Option.orElse, assocGet]

theorem assocGet_setDefault_mono {α : Type} (d : List (String × α)) (k k' : String) (v : α)
    (h : (assocGet d k').isSome = true) :
    (assocGet (setDefault d k v) k').isSome = true := by
  unfold setDefault
  cases hg : assocGet d k with
  | some w => simpa [hg] using h
  | none =>
    cases hg' : assocGet d k' with
    | some w' => simp [assocGet_append, hg', Option.orElse]
    | none => simp [hg'] at h

theorem splitOnChar_ne_nil (sep : Char) (l : List Char) : splitOnChar sep l ≠ [] := by
  induction l with
  | nil => simp [splitOnChar]
  | cons c rest ih =>
    simp only [splitOnChar, List.foldr] at *
    by_cases h : c = sep
    · simp [h]
    · simp only [if_neg h]
      cases hr : List.foldr _ [[]] rest with
      | nil => simp
      | cons h0 t0 => simp

theorem pySplitOn_ne_nil (s : String) (sep : Char) : pySplitOn s sep ≠ [] := by
  unfold pySplitOn
  intro h
  exact splitOnChar_ne_nil sep s.data (List.map_eq_nil_iff.mp h)

theorem getPath_setParts (parts : List String) :
    ∀ (d : List (String × JVal)) (v : JVal), parts ≠ [] →
      getPath (.obj (setParts d parts v)) parts = some v := by
  induction parts with
  | nil => intro d v h; exact absurd rfl h
  | cons p rest ih =>
    intro d v _
    cases rest with
    | nil =>
      simp [setParts, getPath, assocGet_assocSet_self]
    | cons q rest2 =>
      simp only [setParts, getPath]
      rw [assocGet_assocSet_self]
      exact ih _ v (by simp)

/-- C8: `ConfigManager.set` followed by `ConfigManager.get` on the same
dotted key path returns the stored value (for every path string, since
splitting always produces at least one segment), and `get` returns the
supplied default as soon as a segment is missing or the value traversed
is not a dictionary. -/
theorem config_get_set_roundtrip :
    (∀ (d : List (String × JVal)) (parts : List String) (v : JVal),
        parts ≠ [] → getPath (.obj (setParts d parts v)) parts = some v)
  ∧ (∀ (d : List (String × JVal)) (path : String) (v dflt : JVal),
        cfgGet (cfgSet d path v) path dflt = v)
  ∧ (∀ (d : List (String × JVal)) (p : String) (rest : List String) (dflt : JVal),
        assocGet d p = none →
        (getPath (.obj d) (p :: rest)).getD dflt = dflt)
  ∧ (∀ (d : List (String × JVal)) (p : String) (rest : List String) (v dflt : JVal),
        assocGet d p = some v → v.isObj = false → rest ≠ [] →
        (getPath (.obj d) (p :: rest)).getD dflt = dflt) := by
  refine ⟨fun d parts v h => getPath_setParts parts d v h, ?_, ?_, ?_⟩
  · intro d path v dflt
    unfold cfgGet cfgSet
    rw [getPath_setParts _ _ _ (pySplitOn_ne_nil path '.')]
    rfl
  · intro d p rest dflt h
    simp [getPath, h]
  · intro d p rest v dflt h hobj hrest
    cases rest with
    | nil => exact absurd rfl hrest
    | cons q rest2 =>
      cases v with
      | obj o => simp [JVal.isObj] at hobj
      | null => simp [getPath, h]
      | bool b => simp [getPath, h]
      | num n => simp [getPath, h]
      | str s => simp [getPath, h]
      | arr l => simp [getPath, h]

/-- Witness for C8 at concrete inputs. -/
theorem config_get_set_roundtrip_witness :
    cfgGet (cfgSet DEFAULT_CONFIG "api_keys.openai" (.str "sk")) "api_keys.openai" .null
        = .str "sk"
  ∧ cfgGet DEFAULT_CONFIG "no_such.key" (.str "dflt") = .str "dflt" := by
  constructor
  · exact config_get_set_roundtrip.2.1 DEFAULT_CONFIG "api_keys.openai" (.str "sk") .null
  · have h := config_get_set_roundtrip.2.2.1 DEFAULT_CONFIG "no_such" ["key"]
      (.str "dflt") (by rfl)
    exact h

theorem assocGet_assocSet_mono {α : Type} (d : List (String × α)) (k k' : String) (v : α)
    (h : (assocGet d k').isSome = true) :
    (assocGet (assocSet d k v) k').isSome = true := by
  rw [assocGet_assocSet]
  by_cases hk : k = k' <;> simp [hk, h]

theorem assocGet_dictUpdate_mono (pairs : List (String × JVal)) :
    ∀ (d : List (String × JVal)) (k : String),
      (assocGet d k).isSome = true → (assocGet (dictUpdate d pairs) k).isSome = true := by
  induction pairs with
  | nil => intro d k h; exact h
  | cons kv rest ih =>
    intro d k h
    exact ih (assocSet d kv.1 kv.2) k (assocGet_assocSet_mono d kv.1 k kv.2 h)

theorem ensureKeyDefault_mono (d : List (String × JVal)) (k0 : String) (v0 : JVal)
    (k : String) (h : (assocGet d k).isSome = true) :
    (assocGet (ensureKeyDefault d k0 v0) k).isSome = true := by
  unfold ensureKeyDefault
  cases hg : assocGet d k0 with
  | some w => exact h
  | none => exact assocGet_assocSet_mono d k0 k v0 h

theorem assocGet_ensureKeyDefault_ne (d : List (String × JVal)) (k0 : String) (v0 : JVal)
    (k : String) (h : k0 ≠ k) :
    assocGet (ensureKeyDefault d k0 v0) k = assocGet d k := by
  unfold ensureKeyDefault
  cases hg : assocGet d k0 with
  | some w => rfl
  | none => exact assocGet_assocSet_ne d k0 k v0 h

theorem ensureApiKeys_mono (m m' : List (String × JVal)) (k : String)
    (he : ensureApiKeys m = some m') (h : (assocGet m k).isSome = true) :
    (assocGet m' k).isSome = true := by
  unfold ensureApiKeys at he
  cases hg : assocGet m "api_keys" with
  | none =>
    rw [hg] at he
    cases he
    exact assocGet_assocSet_mono m "api_keys" k _ h
  | some w =>
    rw [hg] at he
    cases w with
    | obj ak =>
      cases he
      exact assocGet_assocSet_mono m "api_keys" k _ h
    | null => cases he
    | bool b => cases he
    | num n => cases he
    | str s => cases he
    | arr l => cases he

theorem loadBody_eq (j : JVal) :
    loadBody j =
      (updatePairs j).bind (fun pairs =>
        (ensureApiKeys (dictUpdate DEFAULT_CONFIG pairs)).map (fun m1 =>
          ensureKeyDefault
            (ensureKeyDefault
              (ensureKeyDefault m1 "favorites" (.obj defaultFavorites))
              "medication_schedule" (.obj []))
            "emergency_contacts" (.arr []))) := by
  unfold loadBody
  cases h1 : updatePairs j with
  | none => rfl
  | some pairs =>
    cases h2 : ensureApiKeys (dictUpdate DEFAULT_CONFIG pairs) with
    | none => simp [Option.bind, h2]
    | some m1 => simp [Option.bind, h2]

theorem configLoad_parsed_keys (j : JVal) (k : String)
    (h : (assocGet DEFAULT_CONFIG k).isSome = true) :
    (assocGet (configLoad (.parsed j)) k).isSome = true := by
  cases hb : loadBody j with
  | none => simpa [configLoad, hb] using h
  | some r =>
    simp only [configLoad, hb]
    rw [loadBody_eq] at hb
    cases hp : updatePairs j with
    | none => rw [hp] at hb; cases hb
    | some pairs =>
      rw [hp] at hb
      simp only [Option.some_bind] at hb
      cases he : ensureApiKeys (dictUpdate DEFAULT_CONFIG pairs) with
      | none => rw [he] at hb; simp at hb
      | some m1 =>
        rw [he] at hb
        simp only [Option.map_some', Option.some.injEq] at hb
        subst hb
        apply ensureKeyDefault_mono
        apply ensureKeyDefault_mono
        apply ensureKeyDefault_mono
        exact ensureApiKeys_mono _ _ k he (assocGet_dictUpdate_mono pairs DEFAULT_CONFIG k h)

theorem configLoad_api_keys (input : LoadInput) :
    ∃ ak, assocGet (configLoad input) "api_keys" = some (.obj ak)
      ∧ (assocGet ak "openweathermap").isSome = true
      ∧ (assocGet ak "newsapi").isSome = true
      ∧ (assocGet ak "openai").isSome = true := by
  have hdef : ∃ ak, assocGet DEFAULT_CONFIG "api_keys" = some (JVal.obj ak)
      ∧ (assocGet ak "openweathermap").isSome = true
      ∧ (assocGet ak "newsapi").isSome = true
      ∧ (assocGet ak "openai").isSome = true :=
    ⟨defaultApiKeys, rfl, rfl, rfl, rfl⟩
  cases input with
  | missing => exact hdef
  | readError => exact hdef
  | parsed j =>
    cases hb : loadBody j with
    | none => simpa [configLoad, hb] using hdef
    | some r =>
      simp only [configLoad, hb]
      rw [loadBody_eq] at hb
      cases hp : updatePairs j with
      | none => rw [hp] at hb; cases hb
      | some pairs =>
        rw [hp] at hb
        simp only [Option.some_bind] at hb
        cases he : ensureApiKeys (dictUpdate DEFAULT_CONFIG pairs) with
        | none => rw [he] at hb; simp at hb
        | some m1 =>
          rw [he] at hb
          simp only [Option.map_some', Option.some.injEq] at hb
          subst hb
          rw [assocGet_ensureKeyDefault_ne _ _ _ _ (by decide),
              assocGet_ensureKeyDefault_ne _ _ _ _ (by decide),
              assocGet_ensureKeyDefault_ne _ _ _ _ (by decide)]
          unfold ensureApiKeys at he
          cases hg : assocGet (dictUpdate DEFAULT_CONFIG pairs) "api_keys" with
          | none =>
            rw [hg] at he
            cases he
            refine ⟨defaultApiKeys, assocGet_assocSet_self _ _ _, rfl, rfl, rfl⟩
          | some w =>
            rw [hg] at he
            cases w with
            | obj ak0 =>
              cases he
              refine ⟨_, assocGet_assocSet_self _ _ _, ?_, ?_, ?_⟩
              · show (assocGet (defaultApiKeys.foldl
                  (fun d kv => setDefault d kv.1 kv.2) ak0) "openweathermap").isSome = true
                apply assocGet_setDefault_mono
                apply assocGet_setDefault_mono
                exact assocGet_setDefault_self ak0 "openweathermap" (JVal.str "")
              · show (assocGet (defaultApiKeys.foldl
                  (fun d kv => setDefault d kv.1 kv.2) ak0) "newsapi").isSome = true
                apply assocGet_setDefault_mono
                exact assocGet_setDefault_self _ "newsapi" (JVal.str "")
              · show (assocGet (defaultApiKeys.foldl
                  (fun d kv => setDefault d kv.1 kv.2) ak0) "openai").isSome = true
                exact assocGet_setDefault_self _ "openai" (JVal.str "")
            | null => cases he
            | bool b => cases he
            | num n => cases he
            | str s => cases he
            | arr l => cases he

/-- C9: `ConfigManager._load` always yields a dictionary containing every
top-level key of `DEFAULT_CONFIG` with an `api_keys` dictionary holding
all three service keys; a missing file or a read/parse error yields a
copy of `DEFAULT_CONFIG` (totality of `configLoad` models that no
exception escapes); and a file supplying a partial `favorites`
dictionary is kept as-is, without the nested `music` default. -/
theorem config_load_invariants :
    (∀ (input : LoadInput) (k : String),
        (assocGet DEFAULT_CONFIG k).isSome = true →
        (assocGet (configLoad input) k).isSome = true)
  ∧ (∀ input : LoadInput, ∃ ak,
        assocGet (configLoad input) "api_keys" = some (.obj ak)
        ∧ (assocGet ak "openweathermap").isSome = true
        ∧ (assocGet ak "newsapi").isSome = true
        ∧ (assocGet ak "openai").isSome = true)
  ∧ configLoad .missing = DEFAULT_CONFIG
  ∧ configLoad .readError = DEFAULT_CONFIG
  ∧ (∀ j, loadBody j = none → configLoad (.parsed j) = DEFAULT_CONFIG)
  ∧ assocGet (configLoad (.parsed (.obj [("favorites", .obj [("websites", .arr [])])])))
        "favorites" = some (.obj [("websites", .arr [])]) := by
  refine ⟨?_, configLoad_api_keys, rfl, rfl, ?_, ?_⟩
  · intro input k h
    cases input with
    | missing => exact h
    | readError => exact h
    | parsed j => exact configLoad_parsed_keys j k h
  · intro j h
    simp [configLoad, h]
  · rfl

/-- Witness for C9 at a concrete input. -/
theorem config_load_invariants_witness :
    (assocGet (configLoad (.parsed (.obj [("user_name", .str "Ada")]))) "city").isSome
      = true := by
  exact config_load_invariants.1 (.parsed (.obj [("user_name", .str "Ada")])) "city" rfl

theorem inStr_iff_substring (needle hay : String) :
    inStr needle hay = true ↔ needle.data <:+: hay.data := by
  unfold inStr
  induction hay.data with
  | nil =>
    simp [inStrChars, List.isEmpty_iff]
  | cons c rest ih =>
    simp only [inStrChars, Bool.or_eq_true, List.isPrefixOf_iff_prefix, ih,
      List.infix_cons_iff]

/-- C1: the command router lower-cases and strips the input and then
dispatches by ordered substring matching: `route` coincides with the
first-match walk `routeSpec` over the rule table (emergency keywords
first, then the keyword groups in source order, with the guarded `open`
branch and the exit words last, and the knowledge-lookup fallback when
nothing matches); `inStr` is genuine substring occurrence; any input
whose normalised form contains an emergency keyword is dispatched to the
emergency protocol and reaches no other handler, e.g.
`"help me open a website"`. -/
theorem router_ordered_dispatch :
    (∀ needle hay, inStr needle hay = true ↔ needle.data <:+: hay.data)
  ∧ (∀ s, route s = routeSpec s)
  ∧ (∀ s, (emergencyWords.any fun k => inStr k (pyStrip (pyLower s))) = true →
        route s = Handler.emergency)
  ∧ route "help me open a website" = Handler.emergency := by
  refine ⟨inStr_iff_substring, fun _ => rfl, ?_, by decide⟩
  intro s h
  unfold route
  simp [h]

/-- Witness for C1 on a concrete input containing an emergency keyword. -/
theorem router_ordered_dispatch_witness :
    route "I had a fall at home" = Handler.emergency :=
  router_ordered_dispatch.2.2.1 "I had a fall at home" (by decide)

theorem drainQueue_total (q : List GuiItem) :
    ∀ g, drainQueue guiHandle g q = (q.foldl dispatchGui g, []) := by
  induction q with
  | nil => intro g; rfl
  | cons it rest ih => intro g; simp [drainQueue, guiHandle, List.foldl, ih]

/-- C2: one tick of `_process_gui_queue` always re-arms itself 100 ms
later (the re-arm is the `finally`, so it happens for every handler,
including one that raises mid-drain), and with the actual item dispatch
it removes and processes every queued item in FIFO order; the five
`GuiItem` constructors are exactly the five handled action tags. -/
theorem gui_tick_drains_and_rearms :
    (∀ (handle : GuiState → GuiItem → Option GuiState) (st : AppState),
        (processGuiQueue handle st).2 = 100)
  ∧ (∀ st : AppState, processGuiQueue guiHandle st
        = ({ st with gui := st.queue.foldl dispatchGui st.gui, queue := [] }, 100)) := by
  refine ⟨fun _ _ => rfl, ?_⟩
  intro st
  simp [processGuiQueue, drainQueue_total]

/-- C3: a firing medication reminder announces itself and re-arms a
timer for the same medication and time string with the fixed delay
`24 * 3600 * 1000` ms, recording the fresh timer id in `_med_after_ids`;
nothing else of the modelled state (in particular no fired/unfired
record) changes. -/
theorem medication_rearm_24h : ∀ (st : AppState) (med t : String),
    (triggerMedication st med t).pending
        = st.pending ++ [⟨st.nextId, 24 * 3600 * 1000, med, t⟩]
  ∧ (triggerMedication st med t).medAfterIds = st.medAfterIds ++ [st.nextId]
  ∧ (triggerMedication st med t).queue
        = st.queue ++ [GuiItem.append "assistant" (medMsg med t)]
  ∧ (triggerMedication st med t).schedule = st.schedule
  ∧ (triggerMedication st med t).listening = st.listening := by
  intro st med t
  exact ⟨rfl, rfl, rfl, rfl, rfl⟩

/-- C4: the knowledge-lookup fallback produces exactly one assistant
response for every oracle outcome (totality models that no exception
escapes the chain): the OpenAI completion answers when a non-empty key
is configured and the call succeeds; with an empty key or a raising
call, a Wikipedia two-sentence summary of the raw command answers; and
when that also raises, the fixed apology is the response. -/
theorem fallback_chain : ∀ (env : ExtEnv) (cmd : String),
    (fallbackRun env cmd).length = 1
  ∧ (env.openaiKey ≠ "" → ∀ t, env.ai cmd = some t → fallbackRun env cmd = [t])
  ∧ ((env.openaiKey = "" ∨ env.ai cmd = none) →
        ∀ w, env.wiki cmd 2 = some w → fallbackRun env cmd = [w])
  ∧ ((env.openaiKey = "" ∨ env.ai cmd = none) → env.wiki cmd 2 = none →
        fallbackRun env cmd = ["Sorry, I couldn\x27t find an answer."]) := by
  intro env cmd
  by_cases hk : env.openaiKey = "" <;>
    cases ha : env.ai cmd <;>
      cases hw : env.wiki cmd 2 <;>
        refine ⟨?_, ?_, ?_, ?_⟩ <;>
          simp [fallbackRun, hk, ha, hw]

/-- Witness for C4: empty key and raising Wikipedia oracle on one side
would give the apology; here the Wikipedia oracle answers. -/
theorem fallback_chain_witness :
    fallbackRun envWikiOnly "anything" = ["From the encyclopedia."] :=
  (fallback_chain envWikiOnly "anything").2.2.1 (Or.inl rfl)
    "From the encyclopedia." rfl

theorem parseHHMM_bounds (t : String) (hh mm : Nat) (h : parseHHMM t = some (hh, mm)) :
    hh ≤ 23 ∧ mm ≤ 59 := by
  unfold parseHHMM at h
  split at h
  · split at h
    · split at h
      · simp only [Option.some.injEq, Prod.mk.injEq] at h
        rename_i hh' mm' _ hcond
        obtain ⟨h1, h2⟩ := h
        subst h1; subst h2
        simp only [Bool.and_eq_true, decide_eq_true_eq] at hcond
        exact hcond
      · cases h
    · cases h
  · cases h

theorem nextOccur_props (nowUs hh mm : Nat) (hhh : hh ≤ 23) (hmm : mm ≤ 59) :
    nowUs < nextOccurUs nowUs (hh, mm)
  ∧ nextOccurUs nowUs (hh, mm) ≤ nowUs + usPerDay
  ∧ nextOccurUs nowUs (hh, mm) % usPerDay = targetUs (hh, mm) := by
  unfold nextOccurUs targetUs usPerDay
  simp only
  split <;> omega

theorem schedOneTime_foldl (nowUs : Nat) (med : String) (times : List String) :
    ∀ acc : AppState,
      times.foldl (schedOneTime nowUs med) acc
        = { acc with
            pending := acc.pending ++ timersOfTimes nowUs med times acc.nextId,
            medAfterIds := acc.medAfterIds
              ++ (timersOfTimes nowUs med times acc.nextId).map Timer.id,
            nextId := acc.nextId + parsedCount times } := by
  induction times with
  | nil => intro acc; simp [timersOfTimes, parsedCount]
  | cons t rest ih =>
    intro acc
    cases hp : parseHHMM t with
    | none =>
      simp only [List.foldl, schedOneTime, hp, timersOfTimes, parsedCount]
      exact ih acc
    | some hm =>
      simp only [List.foldl, schedOneTime, hp, timersOfTimes, parsedCount]
      rw [ih]
      obtain ⟨g, q, li, ids, pe, nid, sch, disp⟩ := acc
      simp [List.append_assoc]
      omega

theorem schedAll_foldl (nowUs : Nat) (schedule : List (String × List String)) :
    ∀ acc : AppState,
      schedule.foldl (fun a mt => mt.2.foldl (schedOneTime nowUs mt.1) a) acc
        = { acc with
            pending := acc.pending ++ timersOfSchedule nowUs schedule acc.nextId,
            medAfterIds := acc.medAfterIds
              ++ (timersOfSchedule nowUs schedule acc.nextId).map Timer.id,
            nextId := acc.nextId + totalParsed schedule } := by
  induction schedule with
  | nil => intro acc; simp [timersOfSchedule, totalParsed]
  | cons mt rest ih =>
    intro acc
    obtain ⟨med, times⟩ := mt
    simp only [List.foldl, timersOfSchedule, totalParsed]
    rw [schedOneTime_foldl, ih]
    obtain ⟨g, q, li, ids, pe, nid, sch, disp⟩ := acc
    simp [List.append_assoc]
    omega

/-- C5: `apply_settings_changes` rebuilds the medication schedule: all
previously recorded timers are cancelled (an id without a pending timer
is swallowed by the `except`), the id list is cleared, and one fresh
timer per parseable `HH:MM` entry of the current configuration is
created, so afterwards `_med_after_ids` holds exactly the ids of the
timers derived from the configuration; unparseable entries are skipped
without aborting the walk, and every created timer fires at the next
occurrence of its wall-clock time — strictly in the future, at most one
day away, at the exact time-of-day offset. -/
theorem reschedule_on_settings_change : ∀ (st : AppState) (nowUs : Nat),
    (applySettingsChanges st nowUs).pending
        = st.pending.filter (fun t => !(st.medAfterIds.contains t.id))
            ++ timersOfSchedule nowUs st.schedule st.nextId
  ∧ (applySettingsChanges st nowUs).medAfterIds
        = (timersOfSchedule nowUs st.schedule st.nextId).map Timer.id
  ∧ (∀ tstr hh mm, parseHHMM tstr = some (hh, mm) →
        nowUs < nextOccurUs nowUs (hh, mm)
        ∧ nextOccurUs nowUs (hh, mm) ≤ nowUs + usPerDay
        ∧ nextOccurUs nowUs (hh, mm) % usPerDay = targetUs (hh, mm)
        ∧ delayMsOf nowUs (hh, mm) = (nextOccurUs nowUs (hh, mm) - nowUs) / 1000) := by
  intro st nowUs
  refine ⟨?_, ?_, ?_⟩
  · show (scheduleMedicationReminders st nowUs).pending = _
    unfold scheduleMedicationReminders
    rw [schedAll_foldl]
  · show (scheduleMedicationReminders st nowUs).medAfterIds = _
    unfold scheduleMedicationReminders
    rw [schedAll_foldl]
    simp
  · intro tstr hh mm h
    obtain ⟨h1, h2⟩ := parseHHMM_bounds tstr hh mm h
    obtain ⟨p1, p2, p3⟩ := nextOccur_props nowUs hh mm h1 h2
    exact ⟨p1, p2, p3, rfl⟩

/-- Witness for C5 at a concrete state and clock. -/
theorem reschedule_on_settings_change_witness :
    (applySettingsChanges schedStateEx 0).medAfterIds = [7]
  ∧ (applySettingsChanges schedStateEx 0).pending
      = [⟨7, 28800000, "Aspirin", "08:00"⟩]
  ∧ 0 < nextOccurUs 0 (8, 0) := by
  refine ⟨?_, ?_, ?_⟩
  · exact ((reschedule_on_settings_change schedStateEx 0).2.1).trans (by rfl)
  · exact ((reschedule_on_settings_change schedStateEx 0).1).trans (by rfl)
  · exact (((reschedule_on_settings_change schedStateEx 0).2.2) "08:00" 8 0 (by rfl)).1

/-- C6: listening is cancelled solely by clearing the flag:
`toggle_listening` clears it when set (queueing the button and status
resets) and sets it otherwise; the listen loop checks the flag before
every iteration and consumes no recognizer outcome once it is cleared;
and every exit of `_listen_loop` — flag cleared, speech-service error,
or microphone exception — ends with the flag cleared and the button and
status reset queued last. -/
theorem listening_flag_protocol : ∀ st : AppState,
    (st.listening = true →
        (toggleListening st).listening = false
        ∧ (toggleListening st).queue
            = st.queue ++ [GuiItem.button "listen" "🎤 Start Listening",
                           GuiItem.status "Ready"])
  ∧ (st.listening = false → (toggleListening st).listening = true)
  ∧ (∀ evs, st.listening = false → listenIter st evs = st)
  ∧ (∀ (mic : Except String Unit) (evs : List ListenEvent),
        (listenLoop st mic evs).listening = false
        ∧ ∃ q, (listenLoop st mic evs).queue
            = q ++ [GuiItem.button "listen" "🎤 Start Listening",
                    GuiItem.status "Ready"]) := by
  intro st
  refine ⟨?_, ?_, ?_, ?_⟩
  · intro h
    constructor <;> simp [toggleListening, h]
  · intro h
    simp [toggleListening, h]
  · intro evs h
    cases evs with
    | nil => rfl
    | cons e rest => simp [listenIter, h]
  · intro mic evs
    cases mic with
    | error e => exact ⟨rfl, _, rfl⟩
    | ok u => exact ⟨rfl, _, rfl⟩

/-- Witness for C6 at concrete states. -/
theorem listening_flag_protocol_witness :
    (toggleListening listenOnEx).listening = false
  ∧ listenIter listenOffEx [ListenEvent.timeout] = listenOffEx :=
  ⟨((listening_flag_protocol listenOnEx).1 rfl).1,
   (listening_flag_protocol listenOffEx).2.2.1 [ListenEvent.timeout] rfl⟩

theorem assocGet_cfgSet_ne (d : List (String × JVal)) (kpath : String) (v : JVal)
    (k p : String) (rest : List String) (hsplit : pySplitOn kpath '.' = p :: rest)
    (h : p ≠ k) : assocGet (cfgSet d kpath v) k = assocGet d k := by
  unfold cfgSet
  rw [hsplit]
  cases rest with
  | nil => exact assocGet_assocSet_ne d p k v h
  | cons q r =>
    show assocGet (assocSet d p _) k = assocGet d k
    exact assocGet_assocSet_ne _ _ _ _ h

theorem assocGet_cfgSet_self_single (d : List (String × JVal)) (kpath : String)
    (v : JVal) (hsplit : pySplitOn kpath '.' = [kpath]) :
    assocGet (cfgSet d kpath v) kpath = some v := by
  unfold cfgSet
  rw [hsplit]
  exact assocGet_assocSet_self d kpath v

theorem contactsSaved_eq (ws : List ContactForm) :
    contactsSaved ws
      = (ws.filter (fun c => pyStrip c.name ≠ "" && pyStrip c.phone ≠ "")).map
          (fun c => JVal.obj [("name", .str (pyStrip c.name)),
                              ("phone", .str (pyStrip c.phone)),
                              ("relation", .str (pyStrip c.relation))]) := by
  induction ws with
  | nil => rfl
  | cons w rest ih =>
    by_cases h : (pyStrip w.name ≠ "" && pyStrip w.phone ≠ "") = true
    · simp only [contactsSaved]
      rw [if_pos h, ih, List.filter_cons, if_pos h, List.map_cons]
    · simp only [contactsSaved]
      rw [if_neg h, ih, List.filter_cons, if_neg h]

theorem assocGet_medsSavedFrom (ws : List MedForm) :
    ∀ (acc : List (String × JVal)) (n : String),
      (assocGet (medsSavedFrom acc ws) n).isSome = true
        ↔ ((assocGet acc n).isSome = true
            ∨ ∃ m ∈ ws, pyStrip m.name = n ∧ pyStrip m.name ≠ ""
                ∧ pyStrip m.timesRaw ≠ "") := by
  induction ws with
  | nil =>
    intro acc n
    simp [medsSavedFrom]
  | cons w rest ih =>
    intro acc n
    by_cases hcond : (pyStrip w.name ≠ "" && pyStrip w.timesRaw ≠ "") = true
    · simp only [medsSavedFrom]
      rw [if_pos hcond, ih]
      simp only [Bool.and_eq_true, ne_eq, decide_eq_true_eq] at hcond
      obtain ⟨hn, ht⟩ := hcond
      constructor
      · rintro (hs | ⟨m, hm, hrest⟩)
        · rw [assocGet_assocSet] at hs
          by_cases he : pyStrip w.name = n
          · exact Or.inr ⟨w, List.mem_cons_self w rest, he, hn, ht⟩
          · rw [if_neg he] at hs
            exact Or.inl hs
        · exact Or.inr ⟨m, List.mem_cons_of_mem w hm, hrest⟩
      · rintro (hs | ⟨m, hm, heq, hmn, hmt⟩)
        · exact Or.inl (assocGet_assocSet_mono acc _ n _ hs)
        · rcases List.mem_cons.mp hm with hw | hmr
          · subst hw
            rw [← heq]
            exact Or.inl (by rw [assocGet_assocSet_self]; rfl)
          · exact Or.inr ⟨m, hmr, heq, hmn, hmt⟩
    · simp only [medsSavedFrom]
      rw [if_neg hcond, ih]
      simp only [Bool.and_eq_true, ne_eq, decide_eq_true_eq, not_and] at hcond
      constructor
      · rintro (hs | ⟨m, hm, hrest⟩)
        · exact Or.inl hs
        · exact Or.inr ⟨m, List.mem_cons_of_mem w hm, hrest⟩
      · rintro (hs | ⟨m, hm, heq, hmn, hmt⟩)
        · exact Or.inl hs
        · rcases List.mem_cons.mp hm with hw | hmr
          · subst hw
            exact absurd hmt (by simpa using hcond (by simpa using hmn))
          · exact Or.inr ⟨m, hmr, heq, hmn, hmt⟩

theorem savedCfg_user_name (cfg0 : List (String × JVal)) (f : SettingsForm) :
    assocGet (savedCfg cfg0 f) "user_name"
      = some (.str (strOr (pyStrip f.userName) "User")) := by
  unfold savedCfg
  rw [assocGet_cfgSet_ne _ "favorites.music" _ _ "favorites" ["music"] rfl (by decide),
      assocGet_cfgSet_ne _ "medication_schedule" _ _ "medication_schedule" [] rfl (by decide),
      assocGet_cfgSet_ne _ "emergency_contacts" _ _ "emergency_contacts" [] rfl (by decide),
      assocGet_cfgSet_ne _ "api_keys.openai" _ _ "api_keys" ["openai"] rfl (by decide),
      assocGet_cfgSet_ne _ "api_keys.newsapi" _ _ "api_keys" ["newsapi"] rfl (by decide),
      assocGet_cfgSet_ne _ "api_keys.openweathermap" _ _ "api_keys" ["openweathermap"] rfl (by decide),
      assocGet_cfgSet_ne _ "voice_volume" _ _ "voice_volume" [] rfl (by decide),
      assocGet_cfgSet_ne _ "voice_rate" _ _ "voice_rate" [] rfl (by decide),
      assocGet_cfgSet_ne _ "font_size" _ _ "font_size" [] rfl (by decide),
      assocGet_cfgSet_ne _ "theme" _ _ "theme" [] rfl (by decide),
      assocGet_cfgSet_ne _ "city" _ _ "city" [] rfl (by decide),
      assocGet_cfgSet_self_single _ "user_name" _ rfl]

theorem savedCfg_city (cfg0 : List (String × JVal)) (f : SettingsForm) :
    assocGet (savedCfg cfg0 f) "city"
      = some (.str (strOr (pyStrip f.city) "New York")) := by
  unfold savedCfg
  rw [assocGet_cfgSet_ne _ "favorites.music" _ _ "favorites" ["music"] rfl (by decide),
      assocGet_cfgSet_ne _ "medication_schedule" _ _ "medication_schedule" [] rfl (by decide),
      assocGet_cfgSet_ne _ "emergency_contacts" _ _ "emergency_contacts" [] rfl (by decide),
      assocGet_cfgSet_ne _ "api_keys.openai" _ _ "api_keys" ["openai"] rfl (by decide),
      assocGet_cfgSet_ne _ "api_keys.newsapi" _ _ "api_keys" ["newsapi"] rfl (by decide),
      assocGet_cfgSet_ne _ "api_keys.openweathermap" _ _ "api_keys" ["openweathermap"] rfl (by decide),
      assocGet_cfgSet_ne _ "voice_volume" _ _ "voice_volume" [] rfl (by decide),
      assocGet_cfgSet_ne _ "voice_rate" _ _ "voice_rate" [] rfl (by decide),
      assocGet_cfgSet_ne _ "font_size" _ _ "font_size" [] rfl (by decide),
      assocGet_cfgSet_ne _ "theme" _ _ "theme" [] rfl (by decide),
      assocGet_cfgSet_self_single _ "city" _ rfl]

theorem savedCfg_contacts (cfg0 : List (String × JVal)) (f : SettingsForm) :
    assocGet (savedCfg cfg0 f) "emergency_contacts"
      = some (.arr (contactsSaved f.contacts)) := by
  unfold savedCfg
  rw [assocGet_cfgSet_ne _ "favorites.music" _ _ "favorites" ["music"] rfl (by decide),
      assocGet_cfgSet_ne _ "medication_schedule" _ _ "medication_schedule" [] rfl (by decide),
      assocGet_cfgSet_self_single _ "emergency_contacts" _ rfl]

theorem savedCfg_meds (cfg0 : List (String × JVal)) (f : SettingsForm) :
    assocGet (savedCfg cfg0 f) "medication_schedule"
      = some (.obj (medsSaved f.meds)) := by
  unfold savedCfg
  rw [assocGet_cfgSet_ne _ "favorites.music" _ _ "favorites" ["music"] rfl (by decide),
      assocGet_cfgSet_self_single _ "medication_schedule" _ rfl]

/-- C7 counterexample: with the medication row `("Aspirin", ",")` the
times string is non-empty but parses to the empty list, and
`save_settings` still persists the entry — the saved schedule maps
`"Aspirin"` to an empty time list, so entries are NOT kept only when a
non-empty time list is present. -/
theorem save_settings_counterexample :
    assocGet (saveSettings DEFAULT_CONFIG formCtr true).cfg "medication_schedule"
        = some (.obj [("Aspirin", .arr [])])
  ∧ (saveSettings DEFAULT_CONFIG formCtr true).savedToFile = true :=
  ⟨rfl, rfl⟩

/-- C7 (amended): `save_settings` persists exactly the form contents: a
blank (stripped) user name or city falls back to `"User"` /
`"New York"`; a contact is kept exactly when both its name and phone
are non-empty after stripping; a medication entry is kept exactly when
both its name and its raw times string are non-empty after stripping —
the persisted time list is the comma-split, stripped, blank-filtered
list, which may be empty.  `ConfigManager.save` returns the write
outcome; on `False` the dialog shows an error and stays open (the
in-memory config already holds the new values), on `True` the parent
settings are applied, an info popup is shown and the dialog closes. -/
theorem save_settings_persists : ∀ (cfg0 : List (String × JVal)) (f : SettingsForm)
    (w : Bool),
    (saveSettings cfg0 f w).savedToFile = w
  ∧ (saveSettings cfg0 f w).applied = w
  ∧ (saveSettings cfg0 f w).infoShown = w
  ∧ (saveSettings cfg0 f w).closed = w
  ∧ (saveSettings cfg0 f w).errorShown = !w
  ∧ (saveSettings cfg0 f w).cfg = savedCfg cfg0 f
  ∧ (pyStrip f.userName = "" →
        assocGet (savedCfg cfg0 f) "user_name" = some (.str "User"))
  ∧ (pyStrip f.userName ≠ "" →
        assocGet (savedCfg cfg0 f) "user_name" = some (.str (pyStrip f.userName)))
  ∧ (pyStrip f.city = "" →
        assocGet (savedCfg cfg0 f) "city" = some (.str "New York"))
  ∧ (pyStrip f.city ≠ "" →
        assocGet (savedCfg cfg0 f) "city" = some (.str (pyStrip f.city)))
  ∧ assocGet (savedCfg cfg0 f) "emergency_contacts"
      = some (.arr ((f.contacts.filter
          (fun c => pyStrip c.name ≠ "" && pyStrip c.phone ≠ "")).map
          (fun c => JVal.obj [("name", .str (pyStrip c.name)),
                              ("phone", .str (pyStrip c.phone)),
                              ("relation", .str (pyStrip c.relation))])))
  ∧ assocGet (savedCfg cfg0 f) "medication_schedule"
      = some (.obj (medsSaved f.meds))
  ∧ (∀ n, (assocGet (medsSaved f.meds) n).isSome = true
        ↔ ∃ m ∈ f.meds, pyStrip m.name = n ∧ pyStrip m.name ≠ ""
            ∧ pyStrip m.timesRaw ≠ "") := by
  intro cfg0 f w
  refine ⟨?_, ?_, ?_, ?_, ?_, ?_, ?_, ?_, ?_, ?_, ?_, ?_, ?_⟩
  · cases w <;> rfl
  · cases w <;> rfl
  · cases w <;> rfl
  · cases w <;> rfl
  · cases w <;> rfl
  · cases w <;> rfl
  · intro h
    rw [savedCfg_user_name, strOr, if_pos h]
  · intro h
    rw [savedCfg_user_name, strOr, if_neg h]
  · intro h
    rw [savedCfg_city, strOr, if_pos h]
  · intro h
    rw [savedCfg_city, strOr, if_neg h]
  · rw [savedCfg_contacts, contactsSaved_eq]
  · exact savedCfg_meds cfg0 f
  · intro n
    rw [medsSaved, assocGet_medsSavedFrom]
    simp [assocGet]

/-- Witness for C7 (amended) at a concrete form. -/
theorem save_settings_persists_witness :
    assocGet (savedCfg DEFAULT_CONFIG formOk) "user_name" = some (.str "User")
  ∧ (assocGet (medsSaved formOk.meds) "Aspirin").isSome = true := by
  constructor
  · exact (save_settings_persists DEFAULT_CONFIG formOk true).2.2.2.2.2.2.1 rfl
  · exact ((save_settings_persists DEFAULT_CONFIG formOk true).2.2.2.2.2.2.2.2.2.2.2.2
      "Aspirin").mpr ⟨⟨"Aspirin", "08:00, 20:00"⟩, by decide, by decide, by decide, by decide⟩

/-- C10: `get_weather` and `get_news` are total (modelling that the
`try`/`except` bodies never let an exception escape); with an empty API
key each returns its fixed not-configured message without performing an
HTTP request, and every network error, HTTP status ≥ 400, JSON decode
failure or response-shape failure is converted into the corresponding
`Could not fetch ...` message. -/
theorem weather_news_total_errors :
    ∀ (wKey nKey city : String) (http : Except String HttpResponse),
    (wKey = "" → getWeather wKey city http
        = ("Weather API key not configured. Please add it in Settings.", false))
  ∧ (nKey = "" → getNews nKey http
        = ("News API key not configured. Please add it in Settings.", false))
  ∧ (wKey ≠ "" → ∀ e, http = .error e →
        getWeather wKey city http = ("Could not fetch weather: " ++ e, true))
  ∧ (wKey ≠ "" → ∀ r, http = .ok r → 400 ≤ r.status →
        getWeather wKey city http = ("Could not fetch weather: " ++ r.statusMsg, true))
  ∧ (wKey ≠ "" → ∀ r e, http = .ok r → r.status < 400 → r.body = .error e →
        getWeather wKey city http = ("Could not fetch weather: " ++ e, true))
  ∧ (wKey ≠ "" → ∀ r d e, http = .ok r → r.status < 400 → r.body = .ok d →
        weatherReport city d = .error e →
        getWeather wKey city http = ("Could not fetch weather: " ++ e, true))
  ∧ (nKey ≠ "" → ∀ e, http = .error e →
        getNews nKey http = ("Could not fetch news: " ++ e, true))
  ∧ (nKey ≠ "" → ∀ r, http = .ok r → 400 ≤ r.status →
        getNews nKey http = ("Could not fetch news: " ++ r.statusMsg, true))
  ∧ (nKey ≠ "" → ∀ r e, http = .ok r → r.status < 400 → r.body = .error e →
        getNews nKey http = ("Could not fetch news: " ++ e, true))
  ∧ (nKey ≠ "" → ∀ r d e, http = .ok r → r.status < 400 → r.body = .ok d →
        newsReport d = .error e →
        getNews nKey http = ("Could not fetch news: " ++ e, true)) := by
  intro wKey nKey city http
  refine ⟨?_, ?_, ?_, ?_, ?_, ?_, ?_, ?_, ?_, ?_⟩
  · intro h; simp [getWeather, h]
  · intro h; simp [getNews, h]
  · intro h e he; subst he; simp [getWeather, h]
  · intro h r hr hs; subst hr; simp [getWeather, h, hs]
  · intro h r e hr hs hb; subst hr
    simp [getWeather, h, Nat.not_le.mpr hs, hb]
  · intro h r d e hr hs hb hw; subst hr
    simp [getWeather, h, Nat.not_le.mpr hs, hb, hw]
  · intro h e he; subst he; simp [getNews, h]
  · intro h r hr hs; subst hr; simp [getNews, h, hs]
  · intro h r e hr hs hb; subst hr
    simp [getNews, h, Nat.not_le.mpr hs, hb]
  · intro h r d e hr hs hb hw; subst hr
    simp [getNews, h, Nat.not_le.mpr hs, hb, hw]

/-- Witness for C10 at concrete inputs. -/
theorem weather_news_total_errors_witness :
    getWeather "" "Rome" (.error "boom")
        = ("Weather API key not configured. Please add it in Settings.", false)
  ∧ getNews "key" (.error "socket timeout")
        = ("Could not fetch news: " ++ "socket timeout", true) := by
  constructor
  · exact (weather_news_total_errors "" "key" "Rome" (.error "boom")).1 rfl
  · exact (weather_news_total_errors "key" "key" "Rome"
      (.error "socket timeout")).2.2.2.2.2.2.1 (by decide) "socket timeout" rfl

end Aura
